import Mathlib

/-!
Verification of the Windows event-log analyzer (`loganalyzer.py`).

The program is a two-stage pipeline:
* `parse_event` extracts a fixed schema from one raw XML event record,
  with default substitution for the optional fields;
* `analyze_events` folds a stateful rule table over the parsed events,
  maintaining a per-account failed-login counter (`failed_logins`,
  a `defaultdict(int)`) and an append-only alert list (`alerts`);
* `save_alerts_csv` serializes a non-empty alert list to a CSV file.

Python values are embedded as follows: `int` becomes `Int`, `str` becomes
`String`, a value that may be Python `None` becomes an `Option`, a Python
dict with a default of `0` becomes a total function into `Nat`, and a
function that may raise becomes `Except`.
-/

/-- Configuration constant `FAILED_LOGIN_EVENT_ID = 4625`. -/
def FAILED_LOGIN_EVENT_ID : Int := 4625

/-- Configuration constant `ACCOUNT_CREATED_EVENT_ID = 4720`. -/
def ACCOUNT_CREATED_EVENT_ID : Int := 4720

/-- Configuration constant `PRIV_ESCALATION_EVENT_ID = 4672`. -/
def PRIV_ESCALATION_EVENT_ID : Int := 4672

/-- Configuration constant `SERVICE_STOP_EVENT_ID = 7036`. -/
def SERVICE_STOP_EVENT_ID : Int := 7036

/-- Configuration constant `FAILED_LOGIN_THRESHOLD = 5`. -/
def FAILED_LOGIN_THRESHOLD : Nat := 5

/-- Python digit test used by `int()` on a decimal literal. -/
def isPyDigit (c : Char) : Bool := '0' ≤ c && c ≤ '9'

/-- Whitespace stripped by Python `int()` before parsing. -/
def isPySpace (c : Char) : Bool :=
  c = ' ' || c = '\t' || c = '\n' || c = '\r' || c = '\x0b' || c = '\x0c'

/-- Digits of a decimal literal after the first one; a single underscore is
allowed between two digits (Python numeric-literal grouping). -/
def parseDigitsAux : Nat → List Char → Option Nat
  | acc, [] => some acc
  | acc, c :: cs =>
    if isPyDigit c then parseDigitsAux (10 * acc + (c.toNat - 48)) cs
    else if c = '_' then
      match cs with
      | [] => none
      | d :: _ => if isPyDigit d then parseDigitsAux acc cs else none
    else none

/-- A non-empty decimal digit sequence, leading underscore rejected. -/
def parseDigits : List Char → Option Nat
  | [] => none
  | c :: cs => if isPyDigit c then parseDigitsAux (c.toNat - 48) cs else none

/-- Python `int(s)` on a string: strip whitespace, optional sign, decimal
digits; `none` models the `ValueError` raised on a non-numeric string. -/
def pyInt (s : String) : Option Int :=
  let cs := ((s.data.dropWhile isPySpace).reverse.dropWhile isPySpace).reverse
  match cs with
  | '+' :: rest => (parseDigits rest).map Int.ofNat
  | '-' :: rest => (parseDigits rest).map (fun n => -(Int.ofNat n))
  | rest => (parseDigits rest).map Int.ofNat

/-- Python `int(x)` where `x` is the `.text` of an XML element: the text may
be `None` (empty element), in which case `int` raises (`none` here). -/
def pyIntText : Option String → Option Int
  | none => none
  | some s => pyInt s

/-- One raw event record, abstracted by the results of the fixed XML queries
`parse_event` performs on it.  Each field is the result of the corresponding
`find` call; `Option (Option String)` distinguishes "element absent" (outer
`none`) from "element present with `text = None`" (inner `none`).

* `wellFormed`    : `ET.fromstring(record_xml)` succeeds;
* `eventID`       : `root.find("ns:System/ns:EventID")` and its `.text`;
* `timeCreated`   : `root.find("ns:System/ns:TimeCreated")` and its
                    `attrib['SystemTime']` (inner `none`: attribute missing);
* `targetUserName`: `root.find(".//ns:Data[@Name='TargetUserName']")` and
                    its `.text`;
* `renderingMessage` : `root.find(".//ns:RenderingInfo/ns:Message")` and its
                    `.text`. -/
structure RawRecord where
  wellFormed : Bool
  eventID : Option (Option String)
  timeCreated : Option (Option String)
  targetUserName : Option (Option String)
  renderingMessage : Option (Option String)
deriving DecidableEq, Repr

/-- The normalized event dictionary returned by `parse_event`:
`{"EventID": ..., "Time": ..., "Account": ..., "Message": ...}`.
`account` and `message` are `Option String` because the Python values can be
`None` (element present with no text). -/
structure Event where
  eventID : Int
  time : String
  account : Option String
  message : Option String
deriving DecidableEq, Repr

/-- The exceptions `parse_event` can raise, abstracted: `ET.ParseError` on
malformed XML, attribute/type/value errors on the mandatory fields. -/
inductive ParseError where
  | malformedXml
  | missingEventID
  | badEventID
  | missingTimeCreated
  | missingSystemTime
deriving DecidableEq, Repr

/-- `parse_event(record_xml)`: extract `EventID` (mandatory, numeric),
`TimeCreated/@SystemTime` (mandatory), `TargetUserName` (optional, default
`"N/A"` when the element is absent) and `RenderingInfo/Message` (optional,
default `""` when the element is absent).  Any failure on the mandatory part
is an error; a missing optional element is not. -/
def parse_event (r : RawRecord) : Except ParseError Event :=
  if r.wellFormed = false then .error .malformedXml
  else
    match r.eventID with
    | none => .error .missingEventID
    | some idText =>
      match pyIntText idText with
      | none => .error .badEventID
      | some event_id =>
        match r.timeCreated with
        | none => .error .missingTimeCreated
        | some attrs =>
          match attrs with
          | none => .error .missingSystemTime
          | some time_created =>
            .ok { eventID := event_id
                  time := time_created
                  account :=
                    match r.targetUserName with
                    | none => some "N/A"
                    | some t => t
                  message :=
                    match r.renderingMessage with
                    | none => some ""
                    | some t => t }

/-- One emitted alert dictionary.  `details` is `Option String`: the
failed-login rule synthesizes a string, the other rules copy
`event["Message"]`, which can be `None`. -/
structure Alert where
  time : String
  account : Option String
  type : String
  details : Option String
deriving DecidableEq, Repr

/-- The analyzer's mutable module state: `failed_logins = defaultdict(int)`
(embedded as a total function, default `0`) and `alerts = []`. -/
structure AnalyzerState where
  failed_logins : Option String → Nat
  alerts : List Alert

/-- The state at program start: empty counter dict, empty alert list. -/
def initState : AnalyzerState := { failed_logins := fun _ => 0, alerts := [] }

/-- `failed_logins[event["Account"]] += 1`: pointwise update of the
defaultdict at one key. -/
def bumpCounter (f : Option String → Nat) (acct : Option String) :
    Option String → Nat :=
  fun a => if a = acct then f acct + 1 else f a

/-- The body of the `for record in log.records()` loop in `analyze_events`:
the `if/elif` rule table applied to one parsed event. -/
def processEvent (s : AnalyzerState) (e : Event) : AnalyzerState :=
  if e.eventID = FAILED_LOGIN_EVENT_ID then
    if s.failed_logins e.account + 1 ≥ FAILED_LOGIN_THRESHOLD then
      { failed_logins := bumpCounter s.failed_logins e.account
        alerts := s.alerts ++
          [{ time := e.time, account := e.account
             type := "Multiple Failed Logins"
             details := some (toString (s.failed_logins e.account + 1) ++
               " failed attempts") }] }
    else
      { failed_logins := bumpCounter s.failed_logins e.account
        alerts := s.alerts }
  else if e.eventID = ACCOUNT_CREATED_EVENT_ID then
    { s with alerts := s.alerts ++
        [{ time := e.time, account := e.account
           type := "New User Account Created", details := e.message }] }
  else if e.eventID = PRIV_ESCALATION_EVENT_ID then
    { s with alerts := s.alerts ++
        [{ time := e.time, account := e.account
           type := "Privilege Escalation", details := e.message }] }
  else if e.eventID = SERVICE_STOP_EVENT_ID then
    { s with alerts := s.alerts ++
        [{ time := e.time, account := e.account
           type := "Service Stopped", details := e.message }] }
  else s

/-- `analyze_events` on a stream of already-parsed events: fold the rule
table over the stream starting from the initial module state. -/
def analyze_events (evs : List Event) : AnalyzerState :=
  evs.foldl processEvent initState

/-- `analyze_events` on raw records: each record is parsed and then
processed; a parse failure aborts the run (the Python loop does not catch
exceptions). -/
def analyze_records (rs : List RawRecord) : Except ParseError AnalyzerState :=
  rs.foldlM (fun s r => (parse_event r).map (processEvent s)) initState

/-- Minimal CSV field quoting performed by pandas `to_csv` (QUOTE_MINIMAL):
a field containing the delimiter, the quote character or a line break is
wrapped in double quotes with inner quotes doubled. -/
def csvField (s : String) : String :=
  if s.data.any (fun c => c = ',' || c = '"' || c = '\n' || c = '\r') then
    "\"" ++ String.mk (s.data.flatMap (fun c =>
      if c = '"' then ['"', '"'] else [c])) ++ "\""
  else s

/-- A missing value (Python `None`) is written as an empty field by
`to_csv`; a string is written with minimal quoting. -/
def csvOptField : Option String → String
  | none => ""
  | some s => csvField s

/-- The header row `to_csv` writes: the DataFrame columns are the dict keys
of the alert records, in first-seen order. -/
def csvHeader : String := "Time,Account,Type,Details"

/-- One data row of the CSV export: the four alert fields, comma-joined. -/
def alertRow (a : Alert) : String :=
  csvField a.time ++ "," ++ csvOptField a.account ++ "," ++
    csvField a.type ++ "," ++ csvOptField a.details

/-- The rows `to_csv` writes for a DataFrame of alerts: the header row
followed by one row per alert, in list order. -/
def csvRows (alerts : List Alert) : List String :=
  csvHeader :: alerts.map alertRow

/-- `save_alerts_csv`: when the alert list is non-empty, write the CSV file
(`some` its content, each row terminated by a newline); when it is empty, do
nothing at all (`none`: no file is written). -/
def save_alerts_csv (alerts : List Alert) : Option String :=
  if alerts.isEmpty then none
  else some (String.join ((csvRows alerts).map (fun l => l ++ "\n")))

/-- The counter dict after one loop iteration: bumped at the event's account
key when the event is a failed login, untouched otherwise. -/
theorem processEvent_failed_logins (s : AnalyzerState) (e : Event) :
    (processEvent s e).failed_logins =
      if e.eventID = FAILED_LOGIN_EVENT_ID then bumpCounter s.failed_logins e.account
      else s.failed_logins := by
  by_cases h : e.eventID = FAILED_LOGIN_EVENT_ID
  · rw [if_pos h]
    unfold processEvent
    rw [if_pos h]
    split <;> rfl
  · rw [if_neg h]
    unfold processEvent
    rw [if_neg h]
    split
    · rfl
    · split
      · rfl
      · split
        · rfl
        · rfl

/-- The alert list after one loop iteration: the old list with the rule
table's output (at most one alert) appended. -/
theorem processEvent_alerts_append (s : AnalyzerState) (e : Event) :
    (processEvent s e).alerts = s.alerts ++
      (if e.eventID = FAILED_LOGIN_EVENT_ID then
        (if s.failed_logins e.account + 1 ≥ FAILED_LOGIN_THRESHOLD then
          [{ time := e.time, account := e.account
             type := "Multiple Failed Logins"
             details := some (toString (s.failed_logins e.account + 1) ++
               " failed attempts") }]
         else [])
       else if e.eventID = ACCOUNT_CREATED_EVENT_ID then
        [{ time := e.time, account := e.account
           type := "New User Account Created", details := e.message }]
       else if e.eventID = PRIV_ESCALATION_EVENT_ID then
        [{ time := e.time, account := e.account
           type := "Privilege Escalation", details := e.message }]
       else if e.eventID = SERVICE_STOP_EVENT_ID then
        [{ time := e.time, account := e.account
           type := "Service Stopped", details := e.message }]
       else []) := by
  unfold processEvent
  split
  · split
    · rfl
    · simp
  · split
    · rfl
    · split
      · rfl
      · split
        · rfl
        · simp

/-- The counter dict after a run over a stream: each key holds its initial
value plus the number of failed-login events for that account in the
stream. -/
theorem failed_logins_foldl (evs : List Event) (s : AnalyzerState)
    (a : Option String) :
    (evs.foldl processEvent s).failed_logins a
      = s.failed_logins a +
        evs.countP (fun e =>
          e.eventID == FAILED_LOGIN_EVENT_ID && e.account == a) := by
  induction evs generalizing s with
  | nil => simp
  | cons e evs ih =>
    rw [List.foldl_cons, ih, List.countP_cons]
    have hstep : (processEvent s e).failed_logins a
        = s.failed_logins a +
          (if (e.eventID == FAILED_LOGIN_EVENT_ID && e.account == a) = true
           then 1 else 0) := by
      rw [processEvent_failed_logins]
      by_cases h : e.eventID = FAILED_LOGIN_EVENT_ID
      · rw [if_pos h]
        unfold bumpCounter
        by_cases h2 : a = e.account
        · subst h2
          simp [h]
        · rw [if_neg h2]
          have hbne : (e.account == a) = false :=
            beq_eq_false_iff_ne.mpr (fun hc => h2 hc.symm)
          simp [hbne]
      · rw [if_neg h]
        simp [h]
    omega

/-- Claim C1: for a fixed account, after `k` failed-login events for that
account, processing one more failed-login event for it appends no alert when
`k + 1 < FAILED_LOGIN_THRESHOLD`, and appends exactly one
"Multiple Failed Logins" alert whose details are
`"<k+1> failed attempts"` when `k + 1 ≥ FAILED_LOGIN_THRESHOLD`, the count
being the cumulative number of failed logins seen for the account. -/
theorem C1_failed_login_threshold (a : Option String) (prior : List Event)
    (e : Event)
    (hp : ∀ x ∈ prior, x.eventID = FAILED_LOGIN_EVENT_ID ∧ x.account = a)
    (he : e.eventID = FAILED_LOGIN_EVENT_ID) (ha : e.account = a) :
    (prior.length + 1 < FAILED_LOGIN_THRESHOLD →
      (processEvent (analyze_events prior) e).alerts
        = (analyze_events prior).alerts) ∧
    (FAILED_LOGIN_THRESHOLD ≤ prior.length + 1 →
      (processEvent (analyze_events prior) e).alerts
        = (analyze_events prior).alerts ++
          [{ time := e.time, account := a
             type := "Multiple Failed Logins"
             details := some (toString (prior.length + 1) ++
               " failed attempts") }]) := by
  have hcount : (analyze_events prior).failed_logins a = prior.length := by
    unfold analyze_events
    rw [failed_logins_foldl]
    have hc : prior.countP (fun e =>
        e.eventID == FAILED_LOGIN_EVENT_ID && e.account == a)
        = prior.length := by
      rw [List.countP_eq_length]
      intro x hx
      obtain ⟨h1, h2⟩ := hp x hx
      simp [h1, h2]
    rw [hc]
    simp [initState]
  have happ := processEvent_alerts_append (analyze_events prior) e
  rw [he, ha, hcount] at happ
  rw [if_pos (rfl : FAILED_LOGIN_EVENT_ID = FAILED_LOGIN_EVENT_ID)] at happ
  constructor
  · intro hlt
    rw [happ, if_neg (Nat.not_le.mpr hlt), List.append_nil]
  · intro hge
    rw [happ, if_pos hge]

/-- Claim C2: an event whose `EventID` matches none of the four configured
IDs leaves the whole analyzer state — alert list and counter dict —
unchanged. -/
theorem C2_unrecognized_event_ignored (s : AnalyzerState) (e : Event)
    (h1 : e.eventID ≠ FAILED_LOGIN_EVENT_ID)
    (h2 : e.eventID ≠ ACCOUNT_CREATED_EVENT_ID)
    (h3 : e.eventID ≠ PRIV_ESCALATION_EVENT_ID)
    (h4 : e.eventID ≠ SERVICE_STOP_EVENT_ID) :
    processEvent s e = s := by
  unfold processEvent
  rw [if_neg h1, if_neg h2, if_neg h3, if_neg h4]

/-- Witness for C2 at a concrete event with `EventID = 4688`. -/
theorem C2_unrecognized_event_ignored_witness :
    processEvent initState
      { eventID := 4688, time := "2024-01-01", account := some "bob"
        message := some "m" } = initState :=
  C2_unrecognized_event_ignored initState
    { eventID := 4688, time := "2024-01-01", account := some "bob"
      message := some "m" }
    (by decide) (by decide) (by decide) (by decide)

/-- Witness for C1: after four failed logins for "bob", the fifth appends
exactly one alert reading "5 failed attempts". -/
theorem C1_failed_login_threshold_witness :
    (processEvent
        (analyze_events (List.replicate 4
          { eventID := 4625, time := "t", account := some "bob"
            message := some "" }))
        { eventID := 4625, time := "t", account := some "bob"
          message := some "" }).alerts
      = (analyze_events (List.replicate 4
          { eventID := 4625, time := "t", account := some "bob"
            message := some "" })).alerts ++
        [{ time := "t", account := some "bob"
           type := "Multiple Failed Logins"
           details := some "5 failed attempts" }] :=
  (C1_failed_login_threshold (some "bob")
    (List.replicate 4
      { eventID := 4625, time := "t", account := some "bob"
        message := some "" })
    { eventID := 4625, time := "t", account := some "bob", message := some "" }
    (by decide) rfl rfl).2 (by decide)

/-- Claim C5: an account-created, privilege-escalation or service-stop event
unconditionally appends exactly one alert of the corresponding type, with
timestamp and account copied from the event and details equal to the event's
message, and leaves the counter dict unchanged. -/
theorem C5_unconditional_alerts (s : AnalyzerState) (e : Event)
    (h : e.eventID = ACCOUNT_CREATED_EVENT_ID ∨
      e.eventID = PRIV_ESCALATION_EVENT_ID ∨
      e.eventID = SERVICE_STOP_EVENT_ID) :
    (processEvent s e).alerts = s.alerts ++
      [{ time := e.time, account := e.account
         type :=
           if e.eventID = ACCOUNT_CREATED_EVENT_ID then "New User Account Created"
           else if e.eventID = PRIV_ESCALATION_EVENT_ID then "Privilege Escalation"
           else "Service Stopped"
         details := e.message }] ∧
    (processEvent s e).failed_logins = s.failed_logins := by
  have hne : e.eventID ≠ FAILED_LOGIN_EVENT_ID := by
    rcases h with h | h | h <;> rw [h] <;> decide
  constructor
  · rw [processEvent_alerts_append]
    rcases h with h | h | h <;>
      simp [h, FAILED_LOGIN_EVENT_ID, ACCOUNT_CREATED_EVENT_ID,
        PRIV_ESCALATION_EVENT_ID, SERVICE_STOP_EVENT_ID]
  · rw [processEvent_failed_logins, if_neg hne]

/-- Witness for C5 at a concrete account-created event. -/
theorem C5_unconditional_alerts_witness :
    (processEvent initState
      { eventID := 4720, time := "t2", account := some "alice"
        message := some "created" }).alerts
      = initState.alerts ++
        [{ time := "t2", account := some "alice"
           type := "New User Account Created", details := some "created" }] ∧
    (processEvent initState
      { eventID := 4720, time := "t2", account := some "alice"
        message := some "created" }).failed_logins
      = initState.failed_logins :=
  C5_unconditional_alerts initState
    { eventID := 4720, time := "t2", account := some "alice"
      message := some "created" }
    (Or.inl rfl)

/-- The alert list only ever grows: one loop iteration appends some (possibly
empty) tail. -/
theorem processEvent_alerts_extends (s : AnalyzerState) (e : Event) :
    ∃ t, (processEvent s e).alerts = s.alerts ++ t :=
  ⟨_, processEvent_alerts_append s e⟩

/-- Folding any further events onto a state only appends to its alert
list. -/
theorem foldl_alerts_extends (more : List Event) (s : AnalyzerState) :
    ∃ t, (more.foldl processEvent s).alerts = s.alerts ++ t := by
  induction more generalizing s with
  | nil => exact ⟨[], by simp⟩
  | cons e es ih =>
    obtain ⟨t0, h0⟩ := processEvent_alerts_extends s e
    obtain ⟨t1, h1⟩ := ih (processEvent s e)
    exact ⟨t0 ++ t1, by rw [List.foldl_cons, h1, h0, List.append_assoc]⟩

/-- Claim C6: the alert sequence is append-only — one processing step never
modifies the existing prefix, and the alert list after any extension of the
input stream extends the alert list of the shorter run. -/
theorem C6_alerts_append_only (s : AnalyzerState) (e : Event)
    (evs more : List Event) :
    (∃ t, (processEvent s e).alerts = s.alerts ++ t) ∧
    (∃ t, (analyze_events (evs ++ more)).alerts
      = (analyze_events evs).alerts ++ t) := by
  constructor
  · exact processEvent_alerts_extends s e
  · unfold analyze_events
    rw [List.foldl_append]
    exact foldl_alerts_extends more (evs.foldl processEvent initState)

/-- Claim C7: one processing step emits at most one alert, and the emitted
tail is a function of the current event and the prior counter dict only —
two states with equal counters emit the same tail. -/
theorem C7_single_step_emission (s s' : AnalyzerState) (e : Event)
    (h : s'.failed_logins = s.failed_logins) :
    ∃ t : List Alert, t.length ≤ 1 ∧
      (processEvent s e).alerts = s.alerts ++ t ∧
      (processEvent s' e).alerts = s'.alerts ++ t := by
  refine ⟨_, ?_, processEvent_alerts_append s e, ?_⟩
  · split_ifs <;> simp
  · rw [processEvent_alerts_append s' e, h]

/-- Witness for C7 at a concrete service-stop event with equal states. -/
theorem C7_single_step_emission_witness :
    ∃ t : List Alert, t.length ≤ 1 ∧
      (processEvent initState
        { eventID := 7036, time := "t3", account := none
          message := some "svc stopped" }).alerts
        = initState.alerts ++ t ∧
      (processEvent initState
        { eventID := 7036, time := "t3", account := none
          message := some "svc stopped" }).alerts
        = initState.alerts ++ t :=
  C7_single_step_emission initState initState
    { eventID := 7036, time := "t3", account := none
      message := some "svc stopped" }
    rfl

/-- Claim C8: the counter dict starts empty, is untouched by any event that
is not a failed login, and each per-account count never decreases in one
step. -/
theorem C8_counter_frame_monotone :
    (∀ a, initState.failed_logins a = 0) ∧
    (∀ s e, e.eventID ≠ FAILED_LOGIN_EVENT_ID →
      (processEvent s e).failed_logins = s.failed_logins) ∧
    (∀ s e a, s.failed_logins a ≤ (processEvent s e).failed_logins a) := by
  refine ⟨fun a => rfl,
    fun s e h => by rw [processEvent_failed_logins, if_neg h],
    fun s e a => ?_⟩
  rw [processEvent_failed_logins]
  by_cases h : e.eventID = FAILED_LOGIN_EVENT_ID
  · rw [if_pos h]
    simp only [bumpCounter]
    by_cases h2 : a = e.account
    · rw [if_pos h2, h2]
      exact Nat.le_succ _
    · rw [if_neg h2]
  · rw [if_neg h]

/-- Witness for C8: a non-failed-login event leaves the counter dict of the
initial state unchanged. -/
theorem C8_counter_frame_monotone_witness :
    ({ eventID := 7036, time := "t4", account := some "u"
       message := none } : Event).eventID ≠ FAILED_LOGIN_EVENT_ID ∧
    (processEvent initState
      { eventID := 7036, time := "t4", account := some "u"
        message := none }).failed_logins = initState.failed_logins :=
  ⟨by decide,
    C8_counter_frame_monotone.2.1 initState
      { eventID := 7036, time := "t4", account := some "u", message := none }
      (by decide)⟩

/-- The successful result of `parse_event` on a record whose mandatory
fields extract cleanly: the optional fields go through the default
substitution. -/
theorem parse_event_ok (r : RawRecord) (idText : Option String) (i : Int)
    (ts : String)
    (hw : r.wellFormed = true)
    (hid : r.eventID = some idText) (hi : pyIntText idText = some i)
    (hts : r.timeCreated = some (some ts)) :
    parse_event r = Except.ok
      { eventID := i, time := ts
        account :=
          match r.targetUserName with
          | none => some "N/A"
          | some t => t
        message :=
          match r.renderingMessage with
          | none => some ""
          | some t => t } := by
  unfold parse_event
  rw [hw]
  simp only [Bool.true_eq_false, if_false, hid, hi, hts]

/-- Claim C3: when the mandatory fields parse, a record with no
`TargetUserName` element yields `Account = "N/A"`, and one with no
rendered-message element yields `Message = ""`; in both cases parsing
succeeds. -/
theorem C3_optional_field_defaults (r : RawRecord) (idText : Option String)
    (i : Int) (ts : String)
    (hw : r.wellFormed = true)
    (hid : r.eventID = some idText) (hi : pyIntText idText = some i)
    (hts : r.timeCreated = some (some ts)) :
    (r.targetUserName = none →
      ∃ ev, parse_event r = Except.ok ev ∧ ev.account = some "N/A") ∧
    (r.renderingMessage = none →
      ∃ ev, parse_event r = Except.ok ev ∧ ev.message = some "") := by
  have hp := parse_event_ok r idText i ts hw hid hi hts
  constructor
  · intro h
    rw [h] at hp
    exact ⟨_, hp, rfl⟩
  · intro h
    rw [h] at hp
    exact ⟨_, hp, rfl⟩

/-- Witness for C3: a concrete record with both optional elements absent
parses to `Account = "N/A"` and `Message = ""`. -/
theorem C3_optional_field_defaults_witness :
    (∃ ev, parse_event
        { wellFormed := true, eventID := some (some "4625")
          timeCreated := some (some "2024-01-01T00:00:00Z")
          targetUserName := none, renderingMessage := none }
      = Except.ok ev ∧ ev.account = some "N/A") ∧
    (∃ ev, parse_event
        { wellFormed := true, eventID := some (some "4625")
          timeCreated := some (some "2024-01-01T00:00:00Z")
          targetUserName := none, renderingMessage := none }
      = Except.ok ev ∧ ev.message = some "") :=
  ⟨(C3_optional_field_defaults _ (some "4625") 4625 "2024-01-01T00:00:00Z"
      rfl rfl (by decide) rfl).1 rfl,
   (C3_optional_field_defaults _ (some "4625") 4625 "2024-01-01T00:00:00Z"
      rfl rfl (by decide) rfl).2 rfl⟩

/-- Claim C4: a record that is not well-formed XML, or whose event-id
element is missing, or whose event-id text does not parse as an integer,
makes `parse_event` fail — it never returns an event. -/
theorem C4_parse_error_on_bad_event_id (r : RawRecord)
    (h : r.wellFormed = false ∨ r.eventID = none ∨
      (∃ t, r.eventID = some t ∧ pyIntText t = none)) :
    ∃ err, parse_event r = Except.error err := by
  by_cases hw : r.wellFormed = false
  · exact ⟨ParseError.malformedXml, by unfold parse_event; rw [hw]; rfl⟩
  · have hw' : r.wellFormed = true := by
      revert hw
      cases r.wellFormed <;> simp
    rcases h with h | h | ⟨t, ht, hpt⟩
    · exact absurd h hw
    · refine ⟨ParseError.missingEventID, ?_⟩
      unfold parse_event
      rw [hw']
      simp only [Bool.true_eq_false, if_false, h]
    · refine ⟨ParseError.badEventID, ?_⟩
      unfold parse_event
      rw [hw']
      simp only [Bool.true_eq_false, if_false, ht, hpt]

/-- Witness for C4: a record whose event-id text is the non-numeric string
"abc" fails to parse. -/
theorem C4_parse_error_on_bad_event_id_witness :
    pyIntText (some "abc") = none ∧
    ∃ err, parse_event
        { wellFormed := true, eventID := some (some "abc")
          timeCreated := some (some "2024-01-01T00:00:00Z")
          targetUserName := none, renderingMessage := none }
      = Except.error err :=
  ⟨by decide,
    C4_parse_error_on_bad_event_id _
      (Or.inr (Or.inr ⟨some "abc", rfl, by decide⟩))⟩

/-- Claim C10: when the `TargetUserName` or rendered-message element is
present but has no text, `parse_event` succeeds and returns `Account = none`
(respectively `Message = none`) — Python `None`, not the documented
defaults — because the default substitution only checks element absence. -/
theorem C10_empty_element_gives_none (r : RawRecord) (idText : Option String)
    (i : Int) (ts : String)
    (hw : r.wellFormed = true)
    (hid : r.eventID = some idText) (hi : pyIntText idText = some i)
    (hts : r.timeCreated = some (some ts)) :
    (r.targetUserName = some none →
      ∃ ev, parse_event r = Except.ok ev ∧ ev.account = none) ∧
    (r.renderingMessage = some none →
      ∃ ev, parse_event r = Except.ok ev ∧ ev.message = none) := by
  have hp := parse_event_ok r idText i ts hw hid hi hts
  constructor
  · intro h
    rw [h] at hp
    exact ⟨_, hp, rfl⟩
  · intro h
    rw [h] at hp
    exact ⟨_, hp, rfl⟩

/-- Witness for C10: a concrete record whose `TargetUserName` and `Message`
elements are present but empty parses to `Account = none` and
`Message = none`. -/
theorem C10_empty_element_gives_none_witness :
    (∃ ev, parse_event
        { wellFormed := true, eventID := some (some "4625")
          timeCreated := some (some "2024-01-01T00:00:00Z")
          targetUserName := some none, renderingMessage := some none }
      = Except.ok ev ∧ ev.account = none) ∧
    (∃ ev, parse_event
        { wellFormed := true, eventID := some (some "4625")
          timeCreated := some (some "2024-01-01T00:00:00Z")
          targetUserName := some none, renderingMessage := some none }
      = Except.ok ev ∧ ev.message = none) :=
  ⟨(C10_empty_element_gives_none _ (some "4625") 4625 "2024-01-01T00:00:00Z"
      rfl rfl (by decide) rfl).1 rfl,
   (C10_empty_element_gives_none _ (some "4625") 4625 "2024-01-01T00:00:00Z"
      rfl rfl (by decide) rfl).2 rfl⟩

/-- Counterexample for C9 as stated: on a concrete non-empty alert list the
exported file's header row is `Time,Account,Type,Details` (the dict key is
`"Time"`), which differs from the claimed `Timestamp,Account,Type,Details`. -/
theorem C9_header_counterexample :
    (csvRows [{ time := "t1", account := some "bob"
                type := "Service Stopped", details := some "x" }]).head?
      = some "Time,Account,Type,Details" ∧
    save_alerts_csv [{ time := "t1", account := some "bob"
                       type := "Service Stopped", details := some "x" }]
      = some "Time,Account,Type,Details\nt1,bob,Service Stopped,x\n" ∧
    ("Time,Account,Type,Details" : String)
      ≠ "Timestamp,Account,Type,Details" :=
  ⟨rfl, rfl, by decide⟩

/-- Claim C9 (amended: the header row is `Time,Account,Type,Details`, not
`Timestamp,Account,Type,Details`): exporting a non-empty alert list writes a
file whose first row is the header and which has one further row per alert,
in alert order; an empty alert list writes no file at all. -/
theorem C9_export_format (alerts : List Alert) :
    (alerts = [] → save_alerts_csv alerts = none) ∧
    (alerts ≠ [] →
      save_alerts_csv alerts
        = some (String.join ((csvRows alerts).map (fun l => l ++ "\n"))) ∧
      (csvRows alerts).head? = some "Time,Account,Type,Details" ∧
      (csvRows alerts).length = alerts.length + 1 ∧
      ∀ i, (csvRows alerts)[i + 1]? = (alerts[i]?).map alertRow) := by
  constructor
  · intro h
    rw [h]
    rfl
  · intro h
    refine ⟨?_, rfl, ?_, ?_⟩
    · unfold save_alerts_csv
      rw [if_neg]
      simp [h]
    · simp [csvRows]
    · intro i
      simp [csvRows]

/-- Witness for C9: the empty alert list exports nothing, and a concrete
one-alert list exports the header plus one row. -/
theorem C9_export_format_witness :
    save_alerts_csv ([] : List Alert) = none ∧
    save_alerts_csv [{ time := "t5", account := some "eve"
                       type := "Privilege Escalation", details := some "m" }]
      = some (String.join ((csvRows
          [{ time := "t5", account := some "eve"
             type := "Privilege Escalation", details := some "m" }]).map
          (fun l => l ++ "\n"))) :=
  ⟨(C9_export_format []).1 rfl,
   ((C9_export_format
      [{ time := "t5", account := some "eve"
         type := "Privilege Escalation", details := some "m" }]).2
      (by decide)).1⟩
